import Mathlib

/-!
Verification of the private-network admission policy of emissary
(`emissary-core/src/private_network.rs`), a validator deciding whether a
peer may serve as a tunnel hop, a floodfill node, or a routing-table
entry, under an optional closed-network mode.

The embedding translates the Rust source directly: the external
collaborators (capability descriptor, liveness flags, identity codec)
are opaque boolean queries / an abstract decode function, exactly the
interface the validator consumes.
-/

/-- A fixed-length opaque binary peer identity, compared by raw bytes
(`RouterId` in the source, built from a 32-byte array). -/
structure RouterId where
  bytes : List Nat
deriving DecidableEq, Repr

/-- Capability flags a peer self-advertises; the validator consults the
derived fast-bandwidth classification and the floodfill flag. -/
structure Capabilities where
  is_fast : Bool
  is_floodfill : Bool
deriving DecidableEq, Repr

/-- Read-only snapshot of a peer's advertised state at evaluation time
(`RouterInfo` in the source, restricted to the queries the validator makes). -/
structure RouterInfo where
  capabilities : Capabilities
  is_reachable : Bool
  is_usable : Bool
deriving DecidableEq, Repr

/-- `RouterInfo::is_floodfill`: the descriptor's floodfill-capability flag. -/
def RouterInfo.is_floodfill (self : RouterInfo) : Bool :=
  self.capabilities.is_floodfill

/-- `PrivateNetworkConfig`: declarative configuration record consumed once
at validator construction. -/
structure PrivateNetworkConfig where
  enabled : Bool
  known_relays : List String
  min_bandwidth : Option String
deriving DecidableEq, Repr

/-- `PrivateNetworkValidator`: the policy state. -/
structure PrivateNetworkValidator where
  enabled : Bool
  known_relays : Finset RouterId
  min_bandwidth : Option String
deriving DecidableEq

/-- `PrivateNetworkValidator::new`. The identity codec `base64_decode` is an
external collaborator, passed here as the abstract `decode` function; a
configured relay string enters the allow-list only if it decodes and the
decoded length is exactly 32 bytes. -/
def PrivateNetworkValidator.new (decode : String → Option (List Nat))
    (config : Option PrivateNetworkConfig) : PrivateNetworkValidator :=
  match config with
  | some cfg =>
    if cfg.enabled then
      { enabled := true
        known_relays := (cfg.known_relays.filterMap (fun relay_str =>
            (decode relay_str).bind (fun bytes =>
              if bytes.length = 32 then some (RouterId.mk bytes) else none))).toFinset
        min_bandwidth := cfg.min_bandwidth }
    else
      { enabled := false, known_relays := ∅, min_bandwidth := none }
  | none => { enabled := false, known_relays := ∅, min_bandwidth := none }

/-- `PrivateNetworkValidator::is_enabled`. -/
def PrivateNetworkValidator.is_enabled (self : PrivateNetworkValidator) : Bool :=
  self.enabled

/-- `PrivateNetworkValidator::is_known_relay`: allow-list membership. -/
def PrivateNetworkValidator.is_known_relay (self : PrivateNetworkValidator)
    (router_id : RouterId) : Bool :=
  if router_id ∈ self.known_relays then true else false

/-- `PrivateNetworkValidator::meets_bandwidth_requirement`: recognized fast
tier codes map to the descriptor's fast classification; any other code is
an unsatisfiable requirement (fail-closed). -/
def PrivateNetworkValidator.meets_bandwidth_requirement
    (self : PrivateNetworkValidator) (router_info : RouterInfo)
    (min_bandwidth : String) : Bool :=
  if min_bandwidth = "O" ∨ min_bandwidth = "P" ∨ min_bandwidth = "X" then
    router_info.capabilities.is_fast
  else
    false

/-- `PrivateNetworkValidator::can_be_tunnel_hop`, translated as the same
early-return chain: disabled → accept; unknown relay → reject; configured
bandwidth tier unmet → reject; not reachable or not usable → reject. -/
def PrivateNetworkValidator.can_be_tunnel_hop (self : PrivateNetworkValidator)
    (router_id : RouterId) (router_info : RouterInfo) : Bool :=
  if !self.enabled then
    true
  else if !(self.is_known_relay router_id) then
    false
  else if (match self.min_bandwidth with
      | some min_bandwidth =>
        !(self.meets_bandwidth_requirement router_info min_bandwidth)
      | none => false) then
    false
  else if !router_info.is_reachable || !router_info.is_usable then
    false
  else
    true

/-- `PrivateNetworkValidator::can_be_floodfill`: disabled → the descriptor's
floodfill flag; unknown relay → reject; no floodfill capability → reject;
configured bandwidth tier unmet → reject. -/
def PrivateNetworkValidator.can_be_floodfill (self : PrivateNetworkValidator)
    (router_id : RouterId) (router_info : RouterInfo) : Bool :=
  if !self.enabled then
    router_info.is_floodfill
  else if !(self.is_known_relay router_id) then
    false
  else if !router_info.is_floodfill then
    false
  else if (match self.min_bandwidth with
      | some min_bandwidth =>
        !(self.meets_bandwidth_requirement router_info min_bandwidth)
      | none => false) then
    false
  else
    true

/-- `PrivateNetworkValidator::can_be_added_to_routing_table`: disabled →
accept; unknown relay → reject; not reachable or not usable → reject. -/
def PrivateNetworkValidator.can_be_added_to_routing_table
    (self : PrivateNetworkValidator) (router_id : RouterId)
    (router_info : RouterInfo) : Bool :=
  if !self.enabled then
    true
  else if !(self.is_known_relay router_id) then
    false
  else if !router_info.is_reachable || !router_info.is_usable then
    false
  else
    true

/-- `PrivateNetworkValidator::known_relay_count`. -/
def PrivateNetworkValidator.known_relay_count
    (self : PrivateNetworkValidator) : Nat :=
  self.known_relays.card

/-- Claim C1: for every validator in enabled mode and every identity not in
the allow-list, all three admission predicates (`can_be_tunnel_hop`,
`can_be_floodfill`, `can_be_added_to_routing_table`) return `false` for
every descriptor. -/
theorem allow_list_gating (v : PrivateNetworkValidator)
    (henabled : v.enabled = true) (router_id : RouterId)
    (hid : router_id ∉ v.known_relays) (router_info : RouterInfo) :
    v.can_be_tunnel_hop router_id router_info = false ∧
    v.can_be_floodfill router_id router_info = false ∧
    v.can_be_added_to_routing_table router_id router_info = false := by
  refine ⟨?_, ?_, ?_⟩ <;>
    simp [PrivateNetworkValidator.can_be_tunnel_hop,
      PrivateNetworkValidator.can_be_floodfill,
      PrivateNetworkValidator.can_be_added_to_routing_table,
      PrivateNetworkValidator.is_known_relay, henabled, hid]

/-- Witness for C1 at a concrete enabled validator with an empty allow-list. -/
theorem allow_list_gating_witness :
    (PrivateNetworkValidator.mk true ∅ none).can_be_tunnel_hop
      (RouterId.mk (List.replicate 32 0)) ⟨⟨true, true⟩, true, true⟩ = false ∧
    (PrivateNetworkValidator.mk true ∅ none).can_be_floodfill
      (RouterId.mk (List.replicate 32 0)) ⟨⟨true, true⟩, true, true⟩ = false ∧
    (PrivateNetworkValidator.mk true ∅ none).can_be_added_to_routing_table
      (RouterId.mk (List.replicate 32 0)) ⟨⟨true, true⟩, true, true⟩ = false :=
  allow_list_gating (PrivateNetworkValidator.mk true ∅ none) rfl
    (RouterId.mk (List.replicate 32 0)) (by decide) ⟨⟨true, true⟩, true, true⟩

/-- Claim C2: when the validator's `enabled` flag is false,
`can_be_tunnel_hop` and `can_be_added_to_routing_table` return `true` and
`can_be_floodfill` returns exactly the descriptor's floodfill flag, for
every identity and descriptor. -/
theorem disabled_mode_permissiveness (v : PrivateNetworkValidator)
    (hdisabled : v.enabled = false) (router_id : RouterId)
    (router_info : RouterInfo) :
    v.can_be_tunnel_hop router_id router_info = true ∧
    v.can_be_added_to_routing_table router_id router_info = true ∧
    v.can_be_floodfill router_id router_info = router_info.is_floodfill := by
  refine ⟨?_, ?_, ?_⟩ <;>
    simp [PrivateNetworkValidator.can_be_tunnel_hop,
      PrivateNetworkValidator.can_be_floodfill,
      PrivateNetworkValidator.can_be_added_to_routing_table, hdisabled]

/-- Witness for C2 at a concrete disabled validator and a non-floodfill
descriptor. -/
theorem disabled_mode_permissiveness_witness :
    (PrivateNetworkValidator.mk false ∅ none).can_be_tunnel_hop
      (RouterId.mk (List.replicate 32 1)) ⟨⟨false, false⟩, false, false⟩ = true ∧
    (PrivateNetworkValidator.mk false ∅ none).can_be_added_to_routing_table
      (RouterId.mk (List.replicate 32 1)) ⟨⟨false, false⟩, false, false⟩ = true ∧
    (PrivateNetworkValidator.mk false ∅ none).can_be_floodfill
      (RouterId.mk (List.replicate 32 1)) ⟨⟨false, false⟩, false, false⟩ =
      (RouterInfo.mk ⟨false, false⟩ false false).is_floodfill :=
  disabled_mode_permissiveness (PrivateNetworkValidator.mk false ∅ none) rfl
    (RouterId.mk (List.replicate 32 1)) ⟨⟨false, false⟩, false, false⟩

/-- Claim C5: enabled validator, identity in the allow-list, descriptor
whose floodfill flag is false → `can_be_floodfill` is `false`, regardless of
reachability, usability, or bandwidth classification. -/
theorem floodfill_capability_required (v : PrivateNetworkValidator)
    (henabled : v.enabled = true) (router_id : RouterId)
    (hid : router_id ∈ v.known_relays) (router_info : RouterInfo)
    (hff : router_info.is_floodfill = false) :
    v.can_be_floodfill router_id router_info = false := by
  simp [PrivateNetworkValidator.can_be_floodfill,
    PrivateNetworkValidator.is_known_relay, henabled, hid, hff]

/-- Witness for C5: an allow-listed, fast, reachable, usable peer without
the floodfill flag is rejected as floodfill. -/
theorem floodfill_capability_required_witness :
    (PrivateNetworkValidator.mk true {RouterId.mk (List.replicate 32 2)}
        none).can_be_floodfill
      (RouterId.mk (List.replicate 32 2)) ⟨⟨true, false⟩, true, true⟩ = false :=
  floodfill_capability_required
    (PrivateNetworkValidator.mk true {RouterId.mk (List.replicate 32 2)} none)
    rfl (RouterId.mk (List.replicate 32 2)) (by decide)
    ⟨⟨true, false⟩, true, true⟩ rfl

/-- Claim C6: enabled validator, identity in the allow-list, descriptor with
the floodfill flag that meets the configured bandwidth tier (or no tier
configured) → `can_be_floodfill` is `true`; reachability and usability are
never consulted. -/
theorem floodfill_ignores_liveness (v : PrivateNetworkValidator)
    (henabled : v.enabled = true) (router_id : RouterId)
    (hid : router_id ∈ v.known_relays) (router_info : RouterInfo)
    (hff : router_info.is_floodfill = true)
    (hbw : ∀ mb, v.min_bandwidth = some mb →
      v.meets_bandwidth_requirement router_info mb = true) :
    v.can_be_floodfill router_id router_info = true := by
  cases hmb : v.min_bandwidth with
  | none =>
    simp [PrivateNetworkValidator.can_be_floodfill,
      PrivateNetworkValidator.is_known_relay, henabled, hid, hff, hmb]
  | some mb =>
    simp [PrivateNetworkValidator.can_be_floodfill,
      PrivateNetworkValidator.is_known_relay, henabled, hid, hff, hmb,
      hbw mb hmb]

/-- Witness for C6: an allow-listed, fast, floodfill-capable peer that is
neither reachable nor usable is still accepted as floodfill under
`min_bandwidth = "X"`. -/
theorem floodfill_ignores_liveness_witness :
    (PrivateNetworkValidator.mk true {RouterId.mk (List.replicate 32 3)}
        (some "X")).can_be_floodfill
      (RouterId.mk (List.replicate 32 3)) ⟨⟨true, true⟩, false, false⟩ = true :=
  floodfill_ignores_liveness
    (PrivateNetworkValidator.mk true {RouterId.mk (List.replicate 32 3)}
      (some "X"))
    rfl (RouterId.mk (List.replicate 32 3)) (by decide)
    ⟨⟨true, true⟩, false, false⟩ rfl
    (by intro mb hmb; cases hmb; decide)

/-- Claim C9: enabled validator with any `min_bandwidth` configured,
identity in the allow-list, descriptor reachable and usable →
`can_be_added_to_routing_table` is `true` even when the descriptor does not
meet the bandwidth tier. -/
theorem routing_table_bandwidth_independent (v : PrivateNetworkValidator)
    (henabled : v.enabled = true) (mb : String)
    (hmb : v.min_bandwidth = some mb) (router_id : RouterId)
    (hid : router_id ∈ v.known_relays) (router_info : RouterInfo)
    (hr : router_info.is_reachable = true)
    (hu : router_info.is_usable = true) :
    v.can_be_added_to_routing_table router_id router_info = true := by
  simp [PrivateNetworkValidator.can_be_added_to_routing_table,
    PrivateNetworkValidator.is_known_relay, henabled, hid, hr, hu]

/-- Witness for C9: a slow (non-fast) allow-listed, reachable, usable peer
is accepted into the routing table under `min_bandwidth = "X"`. -/
theorem routing_table_bandwidth_independent_witness :
    (PrivateNetworkValidator.mk true {RouterId.mk (List.replicate 32 4)}
        (some "X")).can_be_added_to_routing_table
      (RouterId.mk (List.replicate 32 4)) ⟨⟨false, false⟩, true, true⟩ = true :=
  routing_table_bandwidth_independent
    (PrivateNetworkValidator.mk true {RouterId.mk (List.replicate 32 4)}
      (some "X"))
    rfl "X" rfl (RouterId.mk (List.replicate 32 4)) (by decide)
    ⟨⟨false, false⟩, true, true⟩ rfl rfl

/-- Claim C10: for every validator, identity and descriptor, if
`can_be_tunnel_hop` returns `true` then `can_be_added_to_routing_table`
returns `true`: tunnel-hop checks subsume routing-table checks. -/
theorem tunnel_hop_implies_routing_table (v : PrivateNetworkValidator)
    (router_id : RouterId) (router_info : RouterInfo)
    (h : v.can_be_tunnel_hop router_id router_info = true) :
    v.can_be_added_to_routing_table router_id router_info = true := by
  revert h
  simp only [PrivateNetworkValidator.can_be_tunnel_hop,
    PrivateNetworkValidator.can_be_added_to_routing_table]
  cases henabled : v.enabled with
  | false => simp
  | true =>
    cases hknown : v.is_known_relay router_id with
    | false => simp
    | true =>
      cases hmb : v.min_bandwidth with
      | none =>
        cases hr : router_info.is_reachable <;>
          cases hu : router_info.is_usable <;> simp
      | some mb =>
        cases hmeets : v.meets_bandwidth_requirement router_info mb <;>
          cases hr : router_info.is_reachable <;>
            cases hu : router_info.is_usable <;> simp

/-- Witness for C10 at a disabled validator, where the tunnel-hop predicate
is vacuously `true`. -/
theorem tunnel_hop_implies_routing_table_witness :
    (PrivateNetworkValidator.mk false ∅ none).can_be_added_to_routing_table
      (RouterId.mk (List.replicate 32 5)) ⟨⟨false, false⟩, false, false⟩ = true :=
  tunnel_hop_implies_routing_table (PrivateNetworkValidator.mk false ∅ none)
    (RouterId.mk (List.replicate 32 5)) ⟨⟨false, false⟩, false, false⟩ rfl

/-- Claim C8: `meets_bandwidth_requirement` returns exactly the descriptor's
fast classification when the tier code is one of the recognized codes "O",
"P", "X", and `false` for every other tier code. -/
theorem meets_bandwidth_requirement_spec (v : PrivateNetworkValidator)
    (router_info : RouterInfo) (mb : String) :
    ((mb = "O" ∨ mb = "P" ∨ mb = "X") →
      v.meets_bandwidth_requirement router_info mb =
        router_info.capabilities.is_fast) ∧
    (mb ≠ "O" → mb ≠ "P" → mb ≠ "X" →
      v.meets_bandwidth_requirement router_info mb = false) := by
  constructor
  · intro hrec
    simp [PrivateNetworkValidator.meets_bandwidth_requirement, hrec]
  · intro hO hP hX
    simp [PrivateNetworkValidator.meets_bandwidth_requirement, hO, hP, hX]

/-- Witness for C8: tier "O" yields the fast flag, unrecognized tier "Q"
yields `false`, on a fast descriptor. -/
theorem meets_bandwidth_requirement_spec_witness :
    (PrivateNetworkValidator.mk true ∅ none).meets_bandwidth_requirement
      ⟨⟨true, false⟩, true, true⟩ "O" =
      (Capabilities.mk true false).is_fast ∧
    (PrivateNetworkValidator.mk true ∅ none).meets_bandwidth_requirement
      ⟨⟨true, false⟩, true, true⟩ "Q" = false :=
  ⟨(meets_bandwidth_requirement_spec (PrivateNetworkValidator.mk true ∅ none)
      ⟨⟨true, false⟩, true, true⟩ "O").1 (Or.inl rfl),
   (meets_bandwidth_requirement_spec (PrivateNetworkValidator.mk true ∅ none)
      ⟨⟨true, false⟩, true, true⟩ "Q").2 (by decide) (by decide) (by decide)⟩

/-- Claim C3: enabled validator whose `min_bandwidth` is set to a code
outside the recognized fast-tier codes → `can_be_tunnel_hop` and
`can_be_floodfill` return `false` for every identity and every descriptor,
including fast ones. -/
theorem bandwidth_fail_closed (v : PrivateNetworkValidator)
    (henabled : v.enabled = true) (mb : String)
    (hmb : v.min_bandwidth = some mb)
    (hO : mb ≠ "O") (hP : mb ≠ "P") (hX : mb ≠ "X")
    (router_id : RouterId) (router_info : RouterInfo) :
    v.can_be_tunnel_hop router_id router_info = false ∧
    v.can_be_floodfill router_id router_info = false := by
  have hmeets : v.meets_bandwidth_requirement router_info mb = false := by
    simp [PrivateNetworkValidator.meets_bandwidth_requirement, hO, hP, hX]
  cases hknown : v.is_known_relay router_id with
  | false =>
    constructor <;>
      simp [PrivateNetworkValidator.can_be_tunnel_hop,
        PrivateNetworkValidator.can_be_floodfill, henabled, hknown]
  | true =>
    constructor <;>
      simp [PrivateNetworkValidator.can_be_tunnel_hop,
        PrivateNetworkValidator.can_be_floodfill, henabled, hknown, hmb,
        hmeets]

/-- Witness for C3: under the unrecognized tier code "ZZZ", an allow-listed
fast, reachable, usable, floodfill-capable peer is rejected for both roles. -/
theorem bandwidth_fail_closed_witness :
    (PrivateNetworkValidator.mk true {RouterId.mk (List.replicate 32 6)}
        (some "ZZZ")).can_be_tunnel_hop
      (RouterId.mk (List.replicate 32 6)) ⟨⟨true, true⟩, true, true⟩ = false ∧
    (PrivateNetworkValidator.mk true {RouterId.mk (List.replicate 32 6)}
        (some "ZZZ")).can_be_floodfill
      (RouterId.mk (List.replicate 32 6)) ⟨⟨true, true⟩, true, true⟩ = false :=
  bandwidth_fail_closed
    (PrivateNetworkValidator.mk true {RouterId.mk (List.replicate 32 6)}
      (some "ZZZ"))
    rfl "ZZZ" rfl (by decide) (by decide) (by decide)
    (RouterId.mk (List.replicate 32 6)) ⟨⟨true, true⟩, true, true⟩

/-- Claim C4: construction is total (it is a Lean function, so it cannot
fail), and a configured relay string that fails to decode, or decodes to a
length other than 32 bytes, contributes nothing: the validator built with
that entry equals the validator built without it, so `known_relay_count`
does not count it. -/
theorem malformed_entry_drop (decode : String → Option (List Nat))
    (cfg : PrivateNetworkConfig) (s : String) (l1 l2 : List String)
    (hmem : cfg.known_relays = l1 ++ s :: l2)
    (hbad : decode s = none ∨
      ∃ bytes, decode s = some bytes ∧ bytes.length ≠ 32) :
    PrivateNetworkValidator.new decode (some cfg) =
      PrivateNetworkValidator.new decode
        (some ⟨cfg.enabled, l1 ++ l2, cfg.min_bandwidth⟩) ∧
    (PrivateNetworkValidator.new decode (some cfg)).known_relay_count =
      (PrivateNetworkValidator.new decode
        (some ⟨cfg.enabled, l1 ++ l2, cfg.min_bandwidth⟩)).known_relay_count := by
  have hfs : (decode s).bind (fun bytes =>
      if bytes.length = 32 then some (RouterId.mk bytes) else none) = none := by
    rcases hbad with h | ⟨bytes, hsome, hlen⟩
    · simp [h]
    · simp [hsome, hlen]
  have hmain : PrivateNetworkValidator.new decode (some cfg) =
      PrivateNetworkValidator.new decode
        (some ⟨cfg.enabled, l1 ++ l2, cfg.min_bandwidth⟩) := by
    simp only [PrivateNetworkValidator.new]
    cases hen : cfg.enabled with
    | false => simp
    | true =>
      simp only [if_true, hmem]
      congr 1
      simp [List.filterMap_append, List.filterMap_cons, hfs]
  exact ⟨hmain, by rw [hmain]⟩

/-- Witness for C4: a single relay string that fails to decode yields the
same validator as an empty relay list. -/
theorem malformed_entry_drop_witness :
    PrivateNetworkValidator.new (fun _ => none)
        (some (PrivateNetworkConfig.mk true ["bad"] none)) =
      PrivateNetworkValidator.new (fun _ => none)
        (some (PrivateNetworkConfig.mk true ([] ++ []) none)) ∧
    (PrivateNetworkValidator.new (fun _ => none)
        (some (PrivateNetworkConfig.mk true ["bad"] none))).known_relay_count =
      (PrivateNetworkValidator.new (fun _ => none)
        (some (PrivateNetworkConfig.mk true ([] ++ []) none))).known_relay_count :=
  malformed_entry_drop (fun _ => none)
    (PrivateNetworkConfig.mk true ["bad"] none) "bad" [] [] rfl (Or.inl rfl)

/-- Counterexample to claim C7 as stated: with allow-list {A} and
`min_bandwidth = "X"`, a descriptor for A with `is_fast = true` that is not
reachable is still rejected as a tunnel hop, so "`is_fast() = true` →
`can_be_tunnel_hop(A, descr) = true`" fails for this descriptor. -/
theorem tunnel_hop_fast_scenario_cex :
    (Capabilities.mk true false).is_fast = true ∧
    (PrivateNetworkValidator.mk true {RouterId.mk (List.replicate 32 7)}
        (some "X")).can_be_tunnel_hop
      (RouterId.mk (List.replicate 32 7)) ⟨⟨true, false⟩, false, true⟩ = false := by
  constructor
  · rfl
  · decide

/-- Claim C7 amended: with an enabled validator whose allow-list is {A} and
`min_bandwidth = "X"`, a descriptor for A with `is_fast = false` is rejected
as tunnel hop; and a descriptor with `is_fast = true` that is also reachable
and usable is accepted. -/
theorem tunnel_hop_fast_scenario (A : RouterId) (router_info : RouterInfo) :
    (router_info.capabilities.is_fast = false →
      (PrivateNetworkValidator.mk true {A} (some "X")).can_be_tunnel_hop A
        router_info = false) ∧
    (router_info.capabilities.is_fast = true →
      router_info.is_reachable = true → router_info.is_usable = true →
      (PrivateNetworkValidator.mk true {A} (some "X")).can_be_tunnel_hop A
        router_info = true) := by
  constructor
  · intro hslow
    simp [PrivateNetworkValidator.can_be_tunnel_hop,
      PrivateNetworkValidator.is_known_relay,
      PrivateNetworkValidator.meets_bandwidth_requirement, hslow]
  · intro hfast hr hu
    simp [PrivateNetworkValidator.can_be_tunnel_hop,
      PrivateNetworkValidator.is_known_relay,
      PrivateNetworkValidator.meets_bandwidth_requirement, hfast, hr, hu]

/-- Witness for C7 (amended): both branches of the scenario at concrete
descriptors. -/
theorem tunnel_hop_fast_scenario_witness :
    (PrivateNetworkValidator.mk true {RouterId.mk (List.replicate 32 8)}
        (some "X")).can_be_tunnel_hop (RouterId.mk (List.replicate 32 8))
      ⟨⟨false, false⟩, true, true⟩ = false ∧
    (PrivateNetworkValidator.mk true {RouterId.mk (List.replicate 32 8)}
        (some "X")).can_be_tunnel_hop (RouterId.mk (List.replicate 32 8))
      ⟨⟨true, false⟩, true, true⟩ = true :=
  ⟨(tunnel_hop_fast_scenario (RouterId.mk (List.replicate 32 8))
      ⟨⟨false, false⟩, true, true⟩).1 rfl,
   (tunnel_hop_fast_scenario (RouterId.mk (List.replicate 32 8))
      ⟨⟨true, false⟩, true, true⟩).2 rfl rfl rfl⟩
